import Mathlib

/-!
# Verification of the Bermuda device-tracking core against its specification

This development shallowly embeds the Bermuda repository's core: the
per-device state model (scanner link table, scanner-role sub-state,
naming, serialization), the trilateration solver, and the floor-plan
camera rendering step.  The camera platform (`camera.py`) is embedded
directly from its source; the `BermudaDevice` module itself is not part
of the visible sources (only its tests and the spec describe it), so its
operations are modelled from the specification, with doc comments
marking each such definition.

Real-valued quantities (distances, coordinates, timestamps) are modelled
over `ℚ`, which keeps every definition executable and every arithmetic
fact exact; the spec's numeric tolerance claims are then verified
exactly or within the stated tolerance.
-/

namespace Bermuda

/-- ASCII lowercasing, character by character (models Python's
`str.lower` on the ASCII addresses this system handles). -/
def strLower (s : String) : String := String.mk (s.data.map Char.toLower)

/-- Replace every `:` with `_`, character by character (models the
address-to-slug replacement used for derived default names). -/
def strReplaceColon (s : String) : String :=
  String.mk (s.data.map (fun c => if c = ':' then '_' else c))

/-- Association-list lookup by exact string key. -/
def alookup {α : Type} (l : List (String × α)) (k : String) : Option α :=
  (l.find? (fun p => p.1 == k)).map (fun p => p.2)

/-- Association-list upsert: replaces the binding for `k` if present,
otherwise appends it. -/
def aupsert {α : Type} (l : List (String × α)) (k : String) (v : α) :
    List (String × α) :=
  if (l.find? (fun p => p.1 == k)).isSome then
    l.map (fun p => if p.1 == k then (k, v) else p)
  else
    l ++ [(k, v)]

/-- The key set of an association list. -/
def akeys {α : Type} (l : List (String × α)) : List String :=
  l.map (fun p => p.1)

/-- Case-insensitive association-list lookup (first match on the
lowercased key), as used for the remote-scanner stamp table. -/
def alookupCI {α : Type} (l : List (String × α)) (k : String) : Option α :=
  (l.find? (fun p => strLower p.1 == strLower k)).map (fun p => p.2)

/-- Modelled from the spec: the receiver handle exposed by the bluetooth
layer, carrying the explicit capability flag distinguishing a remote
(relay-type) receiver from a locally attached one (spec §6, §9: a tagged
variant decided from an explicit capability flag on the handle). -/
structure ScannerHandle where
  source : String
  isRemote : Bool
  timeSinceLastDetection : ℚ
deriving Repr, DecidableEq

/-- Modelled from the spec: a single observation event delivered by the
radio-scan ingestion layer (spec §6: scanner identity, RSSI, optional
transmit power, optional local name, manufacturer data, service ids). -/
structure Advertisement where
  rssi : Int
  tx_power : Option Int
  local_name : Option String
  manufacturer_data : List (Nat × List Nat)
  service_uuids : List String
deriving Repr, DecidableEq

/-- Modelled from the spec: one entry of the bounded advertisement
history kept per device (spec §4.3). -/
structure AdvertRecord where
  scanner_address : String
  rssi : Int
  stamp : ℚ
deriving Repr, DecidableEq

/-- Modelled from the spec: the shared, read-only configuration options
a device references (spec §3, §6): scanner coordinates and the
freshness window for position computation. -/
structure DeviceOptions where
  scanner_coords : List (String × (ℚ × ℚ))
  max_age : ℚ
deriving Repr, DecidableEq

/-- Modelled from the spec: capacity of the bounded advertisement
history (spec §4.3: a fixed configured constant; exact value is a
tunable). -/
def HISTORY_CAPACITY : Nat := 10

/-- Modelled from the spec: the per-device state of `BermudaDevice` in
`bermuda_device.py` (absent from the visible sources).  Spec §3: the
normalized lowercase address, display name, zone label, four parallel
scanner maps, bounded advertisement history, optional computed
position, and the scanner-role sub-state `{is_scanner,
is_remote_scanner, stamps, receiver handle, last_seen}`. -/
structure BermudaDevice where
  address : String
  name : String
  name_by_user : Option String
  zone : String
  scanner_rssi : List (String × Int)
  scanner_distance : List (String × ℚ)
  scanner_distance_raw : List (String × ℚ)
  scanner_last_update : List (String × ℚ)
  adverts : List AdvertRecord
  position : Option (ℚ × ℚ)
  is_scanner : Bool
  is_remote_scanner : Bool
  hascanner : Option ScannerHandle
  stamps : List (String × ℚ)
  last_seen : ℚ
  options : DeviceOptions
deriving Repr, DecidableEq

/-- Modelled from the spec: the derived default display name, stable
per address (spec §4.5; the test suite checks it starts with
`bermuda_`). -/
def default_name (address : String) : String :=
  "bermuda_" ++ strReplaceColon (strLower address)

/-- Modelled from the spec: device creation on first observation of an
address (spec §3): identity is the normalized lowercase address, the
four scanner maps start empty, no position, not a scanner, default
derived name, zone `not_home`. -/
def newDevice (address : String) (opts : DeviceOptions) : BermudaDevice :=
  { address := strLower address
    name := default_name address
    name_by_user := none
    zone := "not_home"
    scanner_rssi := []
    scanner_distance := []
    scanner_distance_raw := []
    scanner_last_update := []
    adverts := []
    position := none
    is_scanner := false
    is_remote_scanner := false
    hascanner := none
    stamps := []
    last_seen := 0
    options := opts }

/-- Modelled from the spec: `async_as_scanner_init` (spec §4.2b): sets
`is_scanner := true`, records the handle, and sets `is_remote_scanner`
iff the handle identifies as a remote (relay-type) receiver. -/
def async_as_scanner_init (d : BermudaDevice) (h : ScannerHandle) :
    BermudaDevice :=
  { d with
    is_scanner := true
    is_remote_scanner := h.isRemote
    hascanner := some h }

/-- Modelled from the spec: `async_as_scanner_get_stamp` (spec §4.2b):
returns the last-seen timestamp recorded for the peer address iff this
device is a remote scanner and the address is present in its stamp
table under a case-insensitive match; otherwise absent.  Local scanners
never expose stamps regardless of table contents. -/
def async_as_scanner_get_stamp (d : BermudaDevice) (peer : String) :
    Option ℚ :=
  if d.is_remote_scanner then alookupCI d.stamps peer else none

/-- Modelled from the spec: `make_name` (spec §4.5): if a user-assigned
name exists, return and persist it as the effective name; otherwise
fall back to the derived default name.  Returns the resolved name
together with the updated device. -/
def make_name (d : BermudaDevice) : String × BermudaDevice :=
  let n :=
    match d.name_by_user with
    | some u => u
    | none => default_name d.address
  (n, { d with name := n })

/-- Modelled from the spec: `async_as_scanner_update` (spec §4.2b):
refreshes `last_seen` from the handle's own time-since-last-detection
signal; a silent no-op if the device was never initialized as a
scanner. -/
def async_as_scanner_update (d : BermudaDevice) (h : ScannerHandle)
    (now : ℚ) : BermudaDevice :=
  if d.is_scanner then { d with last_seen := now - h.timeSinceLastDetection }
  else d

/-- Modelled from the spec: the Distance Estimator's raw conversion of a
single RSSI + reference-power observation into a non-negative distance
(spec §4.1).  The exact curve is a documented tunable; an implausible
(zero or positive) RSSI is clamped to distance 0 rather than producing
a negative distance. -/
def estimate_raw_distance (rssi : Int) (ref_power : Int) : ℚ :=
  if 0 ≤ rssi then 0 else max 0 (((ref_power : ℚ) - (rssi : ℚ)) / 20)

/-- Modelled from the spec: the Distance Estimator's smoothing step
(spec §4.1): blend the new raw estimate with the previous smoothed
estimate (exponential moving average; the coefficient is a tunable,
taken here as 1/2); with no previous value, the raw estimate is used
as-is. -/
def smooth_distance (prev : Option ℚ) (raw : ℚ) : ℚ :=
  match prev with
  | none => raw
  | some p => (p + raw) / 2

/-- Modelled from the spec: the default reference power used when an
advertisement carries no transmit power (spec §4.1: a calibration
constant). -/
def DEFAULT_REF_POWER : Int := -59

/-- Modelled from the spec: bounded history append (spec §4.3, §9):
oldest entries are evicted first once `HISTORY_CAPACITY` is
exceeded. -/
def push_history (l : List AdvertRecord) (r : AdvertRecord) :
    List AdvertRecord :=
  let l := l ++ [r]
  if HISTORY_CAPACITY < l.length then l.drop (l.length - HISTORY_CAPACITY)
  else l

/-- Modelled from the spec: `process_advertisement` (spec §4.3):
extracts RSSI and transmit power, computes the raw distance and blends
it with the device's prior smoothed value for that scanner, upserts the
four parallel scanner maps with the current timestamp, and appends a
bounded history record.  Mutates exactly this device's state. -/
def process_advertisement (d : BermudaDevice) (scanner : BermudaDevice)
    (adv : Advertisement) (now : ℚ) : BermudaDevice :=
  let ref := adv.tx_power.getD DEFAULT_REF_POWER
  let raw := estimate_raw_distance adv.rssi ref
  let smoothed := smooth_distance (alookup d.scanner_distance scanner.address) raw
  { d with
    scanner_rssi := aupsert d.scanner_rssi scanner.address adv.rssi
    scanner_distance := aupsert d.scanner_distance scanner.address smoothed
    scanner_distance_raw := aupsert d.scanner_distance_raw scanner.address raw
    scanner_last_update := aupsert d.scanner_last_update scanner.address now
    adverts := push_history d.adverts
      { scanner_address := scanner.address, rssi := adv.rssi, stamp := now } }

/-- Modelled from the spec: the freshness test used by `prune` (spec
§4.2): a key is retained iff its last-update timestamp is within
`max_age` of `now`. -/
def freshKey (d : BermudaDevice) (now max_age : ℚ) (k : String) : Bool :=
  match alookup d.scanner_last_update k with
  | some ts => decide (now - ts ≤ max_age)
  | none => false

/-- Modelled from the spec: `prune` (spec §4.2) removes entries whose
last-update timestamp is older than `max_age` before `now`, from all
four parallel maps together (`freshKey` above is the retention
test). -/
def prune (d : BermudaDevice) (now max_age : ℚ) : BermudaDevice :=
  { d with
    scanner_rssi := d.scanner_rssi.filter (fun p => freshKey d now max_age p.1)
    scanner_distance :=
      d.scanner_distance.filter (fun p => freshKey d now max_age p.1)
    scanner_distance_raw :=
      d.scanner_distance_raw.filter (fun p => freshKey d now max_age p.1)
    scanner_last_update :=
      d.scanner_last_update.filter (fun p => freshKey d now max_age p.1) }

/-! ## The trilateration solver -/

/-- The warning reported when fewer than 3 fresh scanner candidates
remain (exact text checked by the repository's test suite). -/
def triangulationWarning : String :=
  "Triangulation requires at least 3 scanners"

/-- Modelled from the spec: the warning reported for degenerate
(collinear or coincident) candidate geometry (spec §4.4 step 4:
distinct from the cardinality warning). -/
def degenerateWarning : String :=
  "Triangulation failed: degenerate scanner geometry"

/-- Modelled from the spec: candidate selection (spec §4.4 step 1):
intersect the key sets of `scanner_coords` and the device's distance
map, keeping only entries whose last-update timestamp is within the
freshness window of `now`.  Each candidate is `(x, y, distance)`. -/
def candidate_list (d : BermudaDevice)
    (scanner_coords : List (String × (ℚ × ℚ))) (now : ℚ) :
    List (ℚ × ℚ × ℚ) :=
  scanner_coords.filterMap (fun p =>
    match alookup d.scanner_distance p.1, alookup d.scanner_last_update p.1 with
    | some dist, some ts =>
        if now - ts ≤ d.options.max_age then some (p.2.1, p.2.2, dist)
        else none
    | _, _ => none)

/-- The linearized rows `(aᵢ, bᵢ, cᵢ)` obtained by subtracting the
reference candidate `c0`'s circle equation from candidate `cᵢ`'s:
`aᵢ = 2(xᵢ−x₀)`, `bᵢ = 2(yᵢ−y₀)`,
`cᵢ = xᵢ²+yᵢ²−x₀²−y₀²+d₀²−dᵢ²`. -/
def triRows (c0 : ℚ × ℚ × ℚ) (rest : List (ℚ × ℚ × ℚ)) :
    List (ℚ × ℚ × ℚ) :=
  rest.map (fun c =>
    (2 * (c.1 - c0.1), 2 * (c.2.1 - c0.2.1),
      c.1 ^ 2 + c.2.1 ^ 2 - c0.1 ^ 2 - c0.2.1 ^ 2 + c0.2.2 ^ 2 - c.2.2 ^ 2))

/-- `Σ aᵢ²` over the linearized rows. -/
def sumAA (rows : List (ℚ × ℚ × ℚ)) : ℚ := (rows.map (fun r => r.1 * r.1)).sum

/-- `Σ aᵢbᵢ` over the linearized rows. -/
def sumAB (rows : List (ℚ × ℚ × ℚ)) : ℚ :=
  (rows.map (fun r => r.1 * r.2.1)).sum

/-- `Σ bᵢ²` over the linearized rows. -/
def sumBB (rows : List (ℚ × ℚ × ℚ)) : ℚ :=
  (rows.map (fun r => r.2.1 * r.2.1)).sum

/-- `Σ aᵢcᵢ` over the linearized rows. -/
def sumAC (rows : List (ℚ × ℚ × ℚ)) : ℚ :=
  (rows.map (fun r => r.1 * r.2.2)).sum

/-- `Σ bᵢcᵢ` over the linearized rows. -/
def sumBC (rows : List (ℚ × ℚ × ℚ)) : ℚ :=
  (rows.map (fun r => r.2.1 * r.2.2)).sum

/-- The determinant of the 2×2 normal matrix `AᵀA`. -/
def triDet (rows : List (ℚ × ℚ × ℚ)) : ℚ :=
  sumAA rows * sumBB rows - sumAB rows * sumAB rows

/-- Modelled from the spec: the geometric solve (spec §4.4 step 3):
subtract the first candidate's circle equation from every other to
obtain a linear system in `(x, y)`, then solve its 2×2 normal
equations (least squares over all candidates); if the normal matrix is
singular (rank-deficient geometry) return `none`. -/
def solve_trilateration : List (ℚ × ℚ × ℚ) → Option (ℚ × ℚ)
  | [] => none
  | c0 :: rest =>
    let rows := triRows c0 rest
    if triDet rows = 0 then none
    else
      some ((sumBB rows * sumAC rows - sumAB rows * sumBC rows) / triDet rows,
        (sumAA rows * sumBC rows - sumAB rows * sumAC rows) / triDet rows)

/-- Modelled from the spec: `compute_position` (spec §4.4): select
fresh candidates, fail with the cardinality warning when fewer than 3
remain, otherwise run the overdetermined least-squares solve over all
candidates, failing with the degeneracy warning when the system is
rank-deficient.  Returns the optional point paired with the list of
warnings emitted; no failure raises an exception. -/
def compute_position (d : BermudaDevice)
    (scanner_coords : List (String × (ℚ × ℚ))) (now : ℚ) :
    Option (ℚ × ℚ) × List String :=
  let cands := candidate_list d scanner_coords now
  if cands.length < 3 then (none, [triangulationWarning])
  else
    match solve_trilateration cands with
    | none => (none, [degenerateWarning])
    | some pt => (some pt, [])

/-! ## Serialization -/

/-- A JSON-like value, the target of `to_dict` serialization. -/
inductive DictValue where
  | str (s : String)
  | int (i : Int)
  | num (q : ℚ)
  | boolean (b : Bool)
  | null
  | intMap (m : List (String × Int))
  | numMap (m : List (String × ℚ))
deriving Repr, DecidableEq

/-- Modelled from the spec: `to_dict` (spec §4.5): the serialized
device snapshot, containing at minimum address, display name, and the
`scanner_rssi` / `scanner_distance` / `scanner_distance_raw` maps with
their field names preserved. -/
def to_dict (d : BermudaDevice) : List (String × DictValue) :=
  [ ("address", DictValue.str d.address),
    ("name", DictValue.str d.name),
    ("zone", DictValue.str d.zone),
    ("scanner_rssi", DictValue.intMap d.scanner_rssi),
    ("scanner_distance", DictValue.numMap d.scanner_distance),
    ("scanner_distance_raw", DictValue.numMap d.scanner_distance_raw),
    ("scanner_last_update", DictValue.numMap d.scanner_last_update) ]

/-! ## The floor-plan camera (`custom_components/bermuda/camera.py`) -/

/-- A value found in the `scanner_coords` / `device_coords` option
mappings.  `camera.py` guards each with
`isinstance(coords, list | tuple) and len(coords) >= 2`; values that
are not coordinate sequences are modelled by `other`. -/
inductive CoordValue where
  | coords (l : List ℚ)
  | other
deriving Repr, DecidableEq

/-- The slice of the config entry's options read by `camera.py`:
`CONF_FLOORPLAN_IMAGE`, `CONF_SCANNER_COORDS`, `CONF_DEVICE_COORDS`,
`CONF_ENABLE_TRIANGULATION` (each absent when unset). -/
structure CameraOptions where
  floorplan_image : Option String
  scanner_coords : List (String × CoordValue)
  device_coords : List (String × CoordValue)
  enable_triangulation : Option Bool
deriving Repr, DecidableEq

/-- The slice of a tracked device read by `camera.py`: its computed
coordinates `coord_x` / `coord_y`. -/
structure DeviceView where
  coord_x : Option ℚ
  coord_y : Option ℚ
deriving Repr, DecidableEq

/-- The coordinator state visible to the camera: the device table. -/
structure BermudaCoordinator where
  devices : List (String × DeviceView)
deriving Repr, DecidableEq

/-- The config entry visible to the camera: its options. -/
structure BermudaEntry where
  options : CameraOptions
deriving Repr, DecidableEq

/-- The state `BermudaFloorPlanCamera` holds references to:
`self.coordinator` and `self.entry`. -/
structure CameraState where
  coordinator : BermudaCoordinator
  entry : BermudaEntry
deriving Repr, DecidableEq

/-- One PIL draw call issued by `async_camera_image`: an ellipse or a
rectangle with its bounding box and RGBA fill. -/
inductive DrawOp where
  | ellipse (x0 y0 x1 y1 : ℚ) (fill : Nat × Nat × Nat × Nat)
  | rectangle (x0 y0 x1 y1 : ℚ) (fill : Nat × Nat × Nat × Nat)
deriving Repr, DecidableEq

/-- The rendered camera image: the background file bytes (RGBA-converted
base) together with the marker draw calls, in issue order. -/
structure RenderedImage where
  base : List Nat
  ops : List DrawOp
deriving Repr, DecidableEq

/-- `BermudaFloorPlanCamera.async_camera_image`, embedded from
`camera.py` lines 45-73.  `fs` models the filesystem
(`Path.exists` / `path.read_bytes`): `fs p = none` when the path does
not exist.  `default_triangulation` models the
`DEFAULT_ENABLE_TRIANGULATION` constant from `const.py` (not among the
visible sources); its value does not affect any claim proved here.
Returns the optional rendered image together with the camera state
after the call. -/
def async_camera_image (fs : String → Option (List Nat))
    (default_triangulation : Bool) (s : CameraState) :
    Option RenderedImage × CameraState :=
  match s.entry.options.floorplan_image with
  | none => (none, s)
  | some image_path =>
    if image_path = "" then (none, s)
    else
      match fs image_path with
      | none => (none, s)
      | some data =>
        let scanner_ops := s.entry.options.scanner_coords.filterMap
          (fun p =>
            match p.2 with
            | CoordValue.coords (x :: y :: _) =>
                some (DrawOp.ellipse (x - 4) (y - 4) (x + 4) (y + 4)
                  (0, 0, 255, 192))
            | _ => none)
        let device_ops := s.entry.options.device_coords.filterMap
          (fun p =>
            match p.2 with
            | CoordValue.coords (x :: y :: _) =>
                some (DrawOp.rectangle (x - 3) (y - 3) (x + 3) (y + 3)
                  (255, 0, 0, 192))
            | _ => none)
        let triangulated_ops :=
          if s.entry.options.enable_triangulation.getD default_triangulation then
            s.coordinator.devices.filterMap (fun p =>
              match p.2.coord_x, p.2.coord_y with
              | some x, some y =>
                  some (DrawOp.rectangle (x - 2) (y - 2) (x + 2) (y + 2)
                    (0, 255, 0, 192))
              | _, _ => none)
          else []
        (some { base := data, ops := scanner_ops ++ device_ops ++ triangulated_ops },
          s)

/-! ## Concrete configurations (mirroring the repository's test suite) -/

/-- The canonical three-scanner coordinate configuration: scanners at
`(0,0)`, `(2,0)` and `(0,2)`. -/
def canonicalCoords : List (String × (ℚ × ℚ)) :=
  [("s1", (0, 0)), ("s2", (2, 0)), ("s3", (0, 2))]

/-- A rational approximation of `√2` (`577/408`, a continued-fraction
convergent, accurate to about `2·10⁻⁶`). -/
def sqrtTwoApprox : ℚ := 577 / 408

/-- Options carrying the canonical scanner coordinates and a 60-unit
freshness window. -/
def canonicalOptions : DeviceOptions :=
  { scanner_coords := canonicalCoords, max_age := 60 }

/-- A device whose smoothed distance to each canonical scanner is
(approximately) `√2`, with fresh last-update timestamps. -/
def canonicalDevice : BermudaDevice :=
  { newDevice "AA:BB:CC:DD:EE:FF" canonicalOptions with
    scanner_distance :=
      [("s1", sqrtTwoApprox), ("s2", sqrtTwoApprox), ("s3", sqrtTwoApprox)]
    scanner_last_update := [("s1", 100), ("s2", 100), ("s3", 100)] }

/-- A two-scanner coordinate configuration (below the cardinality
threshold). -/
def twoScannerCoords : List (String × (ℚ × ℚ)) :=
  [("s1", (0, 0)), ("s2", (2, 0))]

/-- A device with only two fresh scanner candidates. -/
def twoScannerDevice : BermudaDevice :=
  { newDevice "AA:BB:CC:DD:EE:FF"
      { scanner_coords := twoScannerCoords, max_age := 60 } with
    scanner_distance := [("s1", 1), ("s2", 1)]
    scanner_last_update := [("s1", 100), ("s2", 100)] }

/-- Three collinear scanner positions (all on the line `y = 0`). -/
def collinearCoords : List (String × (ℚ × ℚ)) :=
  [("s1", (0, 0)), ("s2", (1, 0)), ("s3", (2, 0))]

/-- A device with three fresh candidates whose scanner positions are
collinear. -/
def collinearDevice : BermudaDevice :=
  { newDevice "AA:BB:CC:DD:EE:FF"
      { scanner_coords := collinearCoords, max_age := 60 } with
    scanner_distance := [("s1", 1), ("s2", 1), ("s3", 1)]
    scanner_last_update := [("s1", 100), ("s2", 100), ("s3", 100)] }

/-- A locally attached receiver handle. -/
def localHandle : ScannerHandle :=
  { source := "mock_source", isRemote := false, timeSinceLastDetection := 5 }

/-- A remote (relay-type) receiver handle. -/
def remoteHandle : ScannerHandle :=
  { source := "mock_source", isRemote := true, timeSinceLastDetection := 5 }

/-- Empty options used by the sample devices. -/
def sampleOptions : DeviceOptions := { scanner_coords := [], max_age := 60 }

/-- A scanner device with one recorded peer stamp. -/
def stampedScanner : BermudaDevice :=
  { newDevice "11:22:33:44:55:66" sampleOptions with
    stamps := [("AA:BB:CC:DD:EE:FF", 123)] }

/-- A fresh scanner device. -/
def sampleScanner : BermudaDevice := newDevice "11:22:33:44:55:66" sampleOptions

/-- A sample advertisement observation. -/
def sampleAdvertisement : Advertisement :=
  { rssi := -70, tx_power := some (-20), local_name := some "test"
    manufacturer_data := [], service_uuids := [] }

/-- A camera state whose floor-plan image option is unset. -/
def emptyCameraState : CameraState :=
  { coordinator := { devices := [] }
    entry :=
      { options :=
          { floorplan_image := none, scanner_coords := [], device_coords := []
            enable_triangulation := none } } }

/-- A filesystem with no files. -/
def emptyFs : String → Option (List Nat) := fun _ => none

/-! ## Invariants and geometric predicates -/

/-- The four parallel scanner maps are consistent: every key of
`scanner_rssi` is present in `scanner_distance`,
`scanner_distance_raw` and `scanner_last_update` (spec §3
invariant). -/
def mapsConsistent (d : BermudaDevice) : Prop :=
  ∀ k, k ∈ akeys d.scanner_rssi →
    k ∈ akeys d.scanner_distance ∧ k ∈ akeys d.scanner_distance_raw ∧
      k ∈ akeys d.scanner_last_update

/-- The points all lie on one line `a·x + b·y = c` with `(a, b) ≠ 0`
(this also covers coincident points). -/
def CollinearPts (pts : List (ℚ × ℚ)) : Prop :=
  ∃ a b c : ℚ, ¬(a = 0 ∧ b = 0) ∧ ∀ p ∈ pts, a * p.1 + b * p.2 = c

/-! ## Key-set lemmas for the scanner link table -/

theorem akeys_map_replace {α : Type} (l : List (String × α)) (k : String)
    (v : α) :
    akeys (l.map (fun p => if p.1 == k then (k, v) else p)) = akeys l := by
  induction l with
  | nil => rfl
  | cons h t ih =>
    simp only [List.map_cons, akeys] at ih ⊢
    by_cases hk : h.1 = k
    · simpa [hk] using ih
    · simpa [hk] using ih

theorem mem_akeys_aupsert {α : Type} (l : List (String × α)) (k k' : String)
    (v : α) :
    k' ∈ akeys (aupsert l k v) ↔ k' ∈ akeys l ∨ k' = k := by
  unfold aupsert
  rcases hf : l.find? (fun p => p.1 == k) with _ | p
  · simp [hf, akeys]
  · have hp := List.find?_some hf
    have hpk : p.1 = k := by simpa using hp
    have hm : p ∈ l := List.mem_of_find?_eq_some hf
    have hkl : k ∈ akeys l := by
      simp only [akeys, List.mem_map]
      exact ⟨p, hm, hpk⟩
    simp only [hf, Option.isSome_some, if_true, akeys_map_replace]
    constructor
    · exact fun h => Or.inl h
    · rintro (h | h)
      · exact h
      · exact h ▸ hkl

theorem mem_akeys_filter {α : Type} (l : List (String × α))
    (g : String → Bool) (k : String) :
    k ∈ akeys (l.filter (fun p => g p.1)) ↔ k ∈ akeys l ∧ g k := by
  simp only [akeys, List.mem_map, List.mem_filter]
  constructor
  · rintro ⟨p, ⟨hp, hg⟩, hk⟩
    exact ⟨⟨p, hp, hk⟩, hk ▸ hg⟩
  · rintro ⟨⟨p, hp, hk⟩, hg⟩
    exact ⟨p, ⟨hp, hk ▸ hg⟩, hk⟩

theorem process_advertisement_consistent (d : BermudaDevice)
    (scanner : BermudaDevice) (adv : Advertisement) (now : ℚ)
    (h : mapsConsistent d) :
    mapsConsistent (process_advertisement d scanner adv now) := by
  intro k hk
  simp only [process_advertisement, mem_akeys_aupsert] at hk ⊢
  rcases hk with hk | hk
  · rcases h k hk with ⟨h1, h2, h3⟩
    exact ⟨Or.inl h1, Or.inl h2, Or.inl h3⟩
  · exact ⟨Or.inr hk, Or.inr hk, Or.inr hk⟩

theorem prune_consistent (d : BermudaDevice) (now max_age : ℚ)
    (h : mapsConsistent d) : mapsConsistent (prune d now max_age) := by
  intro k hk
  simp only [prune, mem_akeys_filter] at hk ⊢
  rcases hk with ⟨hk, hg⟩
  rcases h k hk with ⟨h1, h2, h3⟩
  exact ⟨⟨h1, hg⟩, ⟨h2, hg⟩, ⟨h3, hg⟩⟩

/-! ## Degenerate geometry makes the normal matrix singular -/

theorem gram_rank_deficient (rows : List (ℚ × ℚ × ℚ)) (a b : ℚ)
    (hab : ¬(a = 0 ∧ b = 0))
    (hperp : ∀ r ∈ rows, a * r.1 + b * r.2.1 = 0) :
    ∃ T : ℚ, sumAA rows = b ^ 2 * T ∧ sumBB rows = a ^ 2 * T ∧
      sumAB rows = -(a * b) * T := by
  induction rows with
  | nil => exact ⟨0, by simp [sumAA], by simp [sumBB], by simp [sumAB]⟩
  | cons r t ih =>
    obtain ⟨T, h1, h2, h3⟩ :=
      ih (fun s hs => hperp s (List.mem_cons_of_mem r hs))
    have hr := hperp r (List.mem_cons_self r t)
    have hAA : sumAA (r :: t) = r.1 * r.1 + sumAA t := by simp [sumAA]
    have hBB : sumBB (r :: t) = r.2.1 * r.2.1 + sumBB t := by simp [sumBB]
    have hAB : sumAB (r :: t) = r.1 * r.2.1 + sumAB t := by simp [sumAB]
    by_cases hb : b = 0
    · have ha : a ≠ 0 := fun h => hab ⟨h, hb⟩
      have hr1 : r.1 = 0 := by
        have h0 : a * r.1 = 0 := by
          have := hr
          rw [hb] at this
          linarith
        exact (mul_eq_zero.mp h0).resolve_left ha
      refine ⟨T + (r.2.1 / a) ^ 2, ?_, ?_, ?_⟩
      · rw [hAA, h1, hr1, hb]; ring
      · rw [hBB, h2]; field_simp; ring
      · rw [hAB, h3, hr1, hb]; ring
    · have hq : r.2.1 = -(a * r.1) / b := by field_simp; linarith
      refine ⟨T + (r.1 / b) ^ 2, ?_, ?_, ?_⟩
      · rw [hAA, h1]; field_simp; ring
      · rw [hBB, h2, hq]; field_simp; ring
      · rw [hAB, h3, hq]; field_simp; ring

theorem triDet_eq_zero_of_collinear (c0 : ℚ × ℚ × ℚ)
    (rest : List (ℚ × ℚ × ℚ))
    (h : CollinearPts ((c0 :: rest).map (fun c => (c.1, c.2.1)))) :
    triDet (triRows c0 rest) = 0 := by
  obtain ⟨a, b, cc, hab, hline⟩ := h
  have h0 : a * c0.1 + b * c0.2.1 = cc := by
    have := hline (c0.1, c0.2.1) (by simp)
    simpa using this
  have hperp : ∀ r ∈ triRows c0 rest, a * r.1 + b * r.2.1 = 0 := by
    intro r hr
    simp only [triRows, List.mem_map] at hr
    obtain ⟨c, hc, rfl⟩ := hr
    have hi : a * c.1 + b * c.2.1 = cc := by
      have := hline (c.1, c.2.1) (by
        simp only [List.map_cons, List.mem_cons, List.mem_map]
        exact Or.inr ⟨c, hc, rfl⟩)
      simpa using this
    simp only []
    nlinarith [h0, hi]
  obtain ⟨T, h1, h2, h3⟩ := gram_rank_deficient (triRows c0 rest) a b hab hperp
  rw [triDet, h1, h2, h3]
  ring

theorem solve_trilateration_of_collinear (cands : List (ℚ × ℚ × ℚ))
    (h : CollinearPts (cands.map (fun c => (c.1, c.2.1)))) :
    solve_trilateration cands = none := by
  cases cands with
  | nil => rfl
  | cons c0 rest =>
    have hdet := triDet_eq_zero_of_collinear c0 rest h
    simp [solve_trilateration, hdet]

/-! ## Claim theorems -/


/-- Claim C5: `async_as_scanner_get_stamp` returns
the recorded last-seen timestamp iff the device was initialized as a
remote scanner and the peer address matches a stamp-table key
case-insensitively; a locally-initialized scanner returns absent for
every peer regardless of the table's contents, and an unrecorded or
mismatched address returns absent. -/
theorem get_stamp_lookup_spec (d : BermudaDevice) (h : ScannerHandle)
    (peer : String) (t : ℚ) :
    (h.isRemote = false →
      ∀ q, async_as_scanner_get_stamp (async_as_scanner_init d h) q = none) ∧
    (async_as_scanner_get_stamp d peer = some t ↔
      d.is_remote_scanner = true ∧ alookupCI d.stamps peer = some t) ∧
    (alookupCI d.stamps peer = some t →
      ∃ k, (k, t) ∈ d.stamps ∧ strLower k = strLower peer) ∧
    ((∀ k, k ∈ akeys d.stamps → strLower k ≠ strLower peer) →
      async_as_scanner_get_stamp d peer = none) := by
  refine ⟨?_, ?_, ?_, ?_⟩
  · intro h0 q
    simp [async_as_scanner_get_stamp, async_as_scanner_init, h0]
  · by_cases hr : d.is_remote_scanner
    · simp [async_as_scanner_get_stamp, hr]
    · simp [async_as_scanner_get_stamp, hr]
  · intro hl
    unfold alookupCI at hl
    rcases hf : d.stamps.find? (fun p => strLower p.1 == strLower peer) with _ | p
    · rw [hf] at hl
      exact Option.noConfusion hl
    · have hp := List.find?_some hf
      have hm := List.mem_of_find?_eq_some hf
      rw [hf] at hl
      simp at hl
      subst hl
      exact ⟨p.1, by simpa using hm, by simpa using hp⟩
  · intro hnone
    have hf : d.stamps.find? (fun p => strLower p.1 == strLower peer) = none := by
      apply List.find?_eq_none.mpr
      intro p hp
      have hmem : p.1 ∈ akeys d.stamps := by
        unfold akeys
        exact List.mem_map_of_mem (fun q => q.1) hp
      simpa using hnone p.1 hmem
    unfold async_as_scanner_get_stamp alookupCI
    rw [hf]
    simp

/-- Witness for C5 at the test suite's concrete inputs: a stamped
scanner initialized locally yields no stamp, initialized remotely
yields the recorded value under a case-insensitive match, and a
mismatched address yields absent. -/
theorem get_stamp_lookup_spec_witness :
    async_as_scanner_get_stamp (async_as_scanner_init stampedScanner localHandle)
      "AA:bb:CC:DD:EE:FF" = none ∧
    async_as_scanner_get_stamp (async_as_scanner_init stampedScanner remoteHandle)
      "AA:bb:CC:DD:EE:FF" = some 123 ∧
    async_as_scanner_get_stamp (async_as_scanner_init stampedScanner remoteHandle)
      "AA:BB:CC:DD:E1:FF" = none := by
  refine ⟨?_, ?_, ?_⟩
  · exact (get_stamp_lookup_spec stampedScanner localHandle "x" 0).1 rfl
      "AA:bb:CC:DD:EE:FF"
  · apply ((get_stamp_lookup_spec
      (async_as_scanner_init stampedScanner remoteHandle) remoteHandle
      "AA:bb:CC:DD:EE:FF" 123).2.1).mpr
    constructor
    · rfl
    · have hb : (strLower "AA:BB:CC:DD:EE:FF" == strLower "AA:bb:CC:DD:EE:FF") = true := by
        decide
      simp [async_as_scanner_init, stampedScanner, newDevice, sampleOptions,
        alookupCI, List.find?, hb]
  · apply (get_stamp_lookup_spec
      (async_as_scanner_init stampedScanner remoteHandle) remoteHandle
      "AA:BB:CC:DD:E1:FF" 0).2.2.2
    intro k hk
    have : k = "AA:BB:CC:DD:EE:FF" := by
      simpa [async_as_scanner_init, stampedScanner, newDevice, sampleOptions,
        akeys] using hk
    subst this
    decide



/-- Claim C6: scanner-role initialization is idempotent for the flag
pair - calling `async_as_scanner_init` twice with handles of the same
type leaves `is_scanner` / `is_remote_scanner` as after a single call;
a local handle yields `is_scanner = true`, `is_remote_scanner =
false`. -/
theorem scanner_init_idempotent (d : BermudaDevice) (h h2 : ScannerHandle)
    (heq : h2.isRemote = h.isRemote) :
    (async_as_scanner_init (async_as_scanner_init d h) h2).is_scanner =
      (async_as_scanner_init d h).is_scanner ∧
    (async_as_scanner_init (async_as_scanner_init d h) h2).is_remote_scanner =
      (async_as_scanner_init d h).is_remote_scanner ∧
    (h.isRemote = false →
      (async_as_scanner_init d h).is_scanner = true ∧
      (async_as_scanner_init d h).is_remote_scanner = false) := by
  refine ⟨rfl, ?_, ?_⟩
  · simp [async_as_scanner_init, heq]
  · intro h0
    simp [async_as_scanner_init, h0]

/-- Witness for C6 with two local-handle initializations. -/
theorem scanner_init_idempotent_witness :
    (async_as_scanner_init (async_as_scanner_init sampleScanner localHandle)
        localHandle).is_scanner =
      (async_as_scanner_init sampleScanner localHandle).is_scanner ∧
    (async_as_scanner_init (async_as_scanner_init sampleScanner localHandle)
        localHandle).is_remote_scanner =
      (async_as_scanner_init sampleScanner localHandle).is_remote_scanner ∧
    (async_as_scanner_init sampleScanner localHandle).is_scanner = true ∧
    (async_as_scanner_init sampleScanner localHandle).is_remote_scanner = false := by
  obtain ⟨h1, h2, h3⟩ :=
    scanner_init_idempotent sampleScanner localHandle localHandle rfl
  exact ⟨h1, h2, h3 rfl⟩

/-- Claim C7: if a user-assigned name is set, `make_name` returns
exactly that name and stores it as the effective name field; otherwise
it falls back to the derived default name, which is stable per
address. -/
theorem make_name_resolution (d : BermudaDevice) (u : String) :
    (d.name_by_user = some u →
      (make_name d).1 = u ∧ ((make_name d).2).name = u) ∧
    (d.name_by_user = none →
      (make_name d).1 = default_name d.address ∧
      ((make_name d).2).name = default_name d.address) ∧
    (∀ d' : BermudaDevice, d.address = d'.address →
      default_name d.address = default_name d'.address) := by
  refine ⟨?_, ?_, ?_⟩
  · intro hu
    simp [make_name, hu]
  · intro hn
    simp [make_name, hn]
  · intro d' ha
    rw [ha]

/-- Witness for C7: a device with user-assigned name "Custom Name". -/
theorem make_name_resolution_witness :
    (make_name { newDevice "AA:BB:CC:DD:EE:FF" sampleOptions with
        name_by_user := some "Custom Name" }).1 = "Custom Name" ∧
    ((make_name { newDevice "AA:BB:CC:DD:EE:FF" sampleOptions with
        name_by_user := some "Custom Name" }).2).name = "Custom Name" :=
  (make_name_resolution
    { newDevice "AA:BB:CC:DD:EE:FF" sampleOptions with
        name_by_user := some "Custom Name" } "Custom Name").1 rfl

/-- Claim C8: `to_dict` contains at minimum the keys `address`,
`scanner_rssi`, `scanner_distance` and `scanner_distance_raw`, and the
`address` value is the device's normalized lowercase address - the
same normalization `newDevice` applies at creation. -/
theorem to_dict_serialization (d : BermudaDevice) (addr : String)
    (opts : DeviceOptions) :
    alookup (to_dict d) "address" = some (DictValue.str d.address) ∧
    "scanner_rssi" ∈ akeys (to_dict d) ∧
    "scanner_distance" ∈ akeys (to_dict d) ∧
    "scanner_distance_raw" ∈ akeys (to_dict d) ∧
    alookup (to_dict d) "scanner_rssi" = some (DictValue.intMap d.scanner_rssi) ∧
    (newDevice addr opts).address = strLower addr ∧
    alookup (to_dict (newDevice addr opts)) "address" =
      some (DictValue.str (strLower addr)) := by
  refine ⟨?_, ?_, ?_, ?_, ?_, rfl, ?_⟩ <;>
    simp [to_dict, alookup, akeys, newDevice, List.find?]



/-- Claim C4: after `process_advertisement` on a fresh device the four
maps `scanner_rssi`, `scanner_distance`, `scanner_distance_raw` and
`scanner_last_update` contain exactly the same single key (the
scanner's address); and every key of `scanner_rssi` is present in the
other three maps after any map-touching operation
(`process_advertisement`, `prune`) completes. -/
theorem scanner_maps_consistency :
    (∀ (addr : String) (opts : DeviceOptions) (scanner : BermudaDevice)
        (adv : Advertisement) (now : ℚ),
      akeys (process_advertisement (newDevice addr opts) scanner adv
          now).scanner_rssi = [scanner.address] ∧
      akeys (process_advertisement (newDevice addr opts) scanner adv
          now).scanner_distance = [scanner.address] ∧
      akeys (process_advertisement (newDevice addr opts) scanner adv
          now).scanner_distance_raw = [scanner.address] ∧
      akeys (process_advertisement (newDevice addr opts) scanner adv
          now).scanner_last_update = [scanner.address]) ∧
    (∀ (d scanner : BermudaDevice) (adv : Advertisement) (now : ℚ),
      mapsConsistent d →
        mapsConsistent (process_advertisement d scanner adv now)) ∧
    (∀ (d : BermudaDevice) (now ma : ℚ),
      mapsConsistent d → mapsConsistent (prune d now ma)) := by
  refine ⟨?_, ?_, ?_⟩
  · intro addr opts scanner adv now
    refine ⟨?_, ?_, ?_, ?_⟩ <;>
      simp [process_advertisement, newDevice, aupsert, alookup, akeys,
        List.find?]
  · exact fun d scanner adv now h =>
      process_advertisement_consistent d scanner adv now h
  · exact fun d now ma h => prune_consistent d now ma h

/-- Witness for C4 at a concrete fresh device and observation. -/
theorem scanner_maps_consistency_witness :
    akeys (process_advertisement (newDevice "AA:BB:CC:DD:EE:FF" sampleOptions)
        sampleScanner sampleAdvertisement 5).scanner_rssi =
      [sampleScanner.address] ∧
    mapsConsistent (process_advertisement
      (newDevice "AA:BB:CC:DD:EE:FF" sampleOptions) sampleScanner
      sampleAdvertisement 5) := by
  constructor
  · exact (scanner_maps_consistency.1 "AA:BB:CC:DD:EE:FF" sampleOptions
      sampleScanner sampleAdvertisement 5).1
  · exact scanner_maps_consistency.2.1 _ sampleScanner sampleAdvertisement 5
      (fun k hk => absurd hk (by simp [newDevice, akeys]))

/-- Claim C2: whenever fewer than 3 fresh scanner candidates remain
after intersecting the coordinate map with the device's distance map
and filtering by freshness, `compute_position` returns absent and
emits exactly the warning "Triangulation requires at least 3
scanners" (and, being a total function, raises no exception). -/
theorem compute_position_insufficient_scanners (d : BermudaDevice)
    (coords : List (String × (ℚ × ℚ))) (now : ℚ)
    (h : (candidate_list d coords now).length < 3) :
    compute_position d coords now = (none, [triangulationWarning]) ∧
    triangulationWarning = "Triangulation requires at least 3 scanners" := by
  constructor
  · simp only [compute_position]
    rw [if_pos h]
  · rfl

/-- Witness for C2: the two-scanner configuration of the test suite. -/
theorem compute_position_insufficient_scanners_witness :
    compute_position twoScannerDevice twoScannerCoords 100 =
      (none, [triangulationWarning]) ∧
    triangulationWarning = "Triangulation requires at least 3 scanners" :=
  compute_position_insufficient_scanners twoScannerDevice twoScannerCoords 100
    (by simp [candidate_list, twoScannerDevice, twoScannerCoords,
      newDevice, alookup, List.find?])

/-- Claim C3: for every candidate set of 3 or more scanners whose
positions are collinear or coincident (rank-deficient normal system),
`compute_position` returns absent with a warning distinct from the
cardinality warning; over `ℚ` no NaN can be produced and the function
is total. -/
theorem compute_position_degenerate_geometry (d : BermudaDevice)
    (coords : List (String × (ℚ × ℚ))) (now : ℚ)
    (h3 : 3 ≤ (candidate_list d coords now).length)
    (hcol : CollinearPts
      ((candidate_list d coords now).map (fun c => (c.1, c.2.1)))) :
    compute_position d coords now = (none, [degenerateWarning]) ∧
    degenerateWarning ≠ triangulationWarning := by
  constructor
  · have hs := solve_trilateration_of_collinear _ hcol
    simp only [compute_position]
    rw [if_neg (Nat.not_lt.mpr h3), hs]
  · decide

/-- Witness for C3: three collinear scanners on the line `y = 0`. -/
theorem compute_position_degenerate_geometry_witness :
    compute_position collinearDevice collinearCoords 100 =
      (none, [degenerateWarning]) ∧
    degenerateWarning ≠ triangulationWarning := by
  have hc : candidate_list collinearDevice collinearCoords 100 =
      [(0, 0, 1), (1, 0, 1), (2, 0, 1)] := by
    simp [candidate_list, collinearDevice, collinearCoords, newDevice,
      alookup, List.find?]
  apply compute_position_degenerate_geometry
  · rw [hc]; norm_num
  · rw [hc]
    refine ⟨0, 1, 0, by norm_num, ?_⟩
    intro p hp
    simp at hp
    rcases hp with h | h | h <;> rw [h] <;> norm_num

/-- Claim C1: for the canonical configuration - scanners at (0,0),
(2,0), (0,2), each smoothed distance the rational convergent of √2
and fresh timestamps - `compute_position` returns a point within
relative tolerance 1e-3 of (1.0, 1.0) (here exactly (1, 1)); the
second conjunct documents the accuracy of the √2 approximant. -/
theorem canonical_compute_position :
    (∃ p : ℚ × ℚ,
      (compute_position canonicalDevice canonicalCoords 100).1 = some p ∧
      |p.1 - 1| ≤ 1 / 1000 ∧ |p.2 - 1| ≤ 1 / 1000) ∧
    |sqrtTwoApprox ^ 2 - 2| ≤ 1 / 100000 := by
  constructor
  · refine ⟨(1, 1), ?_, by norm_num, by norm_num⟩
    simp [compute_position, candidate_list, solve_trilateration, triRows,
      sumAA, sumAB, sumBB, sumAC, sumBC, triDet, canonicalDevice,
      canonicalCoords, canonicalOptions, newDevice, alookup, List.find?,
      sqrtTwoApprox]
    norm_num
  · norm_num [sqrtTwoApprox, abs_le]



/-- Claim C9: `async_camera_image` is stateless with respect to the
core - it leaves the camera state (the coordinator's device states and
the entry's options) unchanged on every call. -/
theorem camera_image_stateless (fs : String → Option (List Nat))
    (dflt : Bool) (s : CameraState) :
    (async_camera_image fs dflt s).2 = s ∧
    (async_camera_image fs dflt s).2.coordinator.devices =
      s.coordinator.devices ∧
    (async_camera_image fs dflt s).2.entry.options = s.entry.options := by
  have h : (async_camera_image fs dflt s).2 = s := by
    obtain ⟨⟨devs⟩, ⟨⟨fp, sc, dc, et⟩⟩⟩ := s
    cases fp with
    | none => rfl
    | some p =>
      by_cases hp : p = ""
      · simp [async_camera_image, hp]
      · cases hfs : fs p with
        | none => simp [async_camera_image, hp, hfs]
        | some data => simp [async_camera_image, hp, hfs]
  exact ⟨h, by rw [h], by rw [h]⟩

/-- Claim C10: `async_camera_image` returns no image whenever the
floor-plan image option is unset or empty, or the configured path does
not exist; in each case it returns `(none, s)` without drawing any
markers. -/
theorem camera_image_absent_cases (fs : String → Option (List Nat))
    (dflt : Bool) (s : CameraState)
    (h : s.entry.options.floorplan_image = none ∨
      s.entry.options.floorplan_image = some "" ∨
      ∃ p, s.entry.options.floorplan_image = some p ∧ fs p = none) :
    async_camera_image fs dflt s = (none, s) := by
  rcases h with h | h | ⟨p, hp, hfs⟩
  · unfold async_camera_image
    rw [h]
  · unfold async_camera_image
    rw [h]
    simp
  · unfold async_camera_image
    rw [hp]
    by_cases hP : p = ""
    · simp [hP]
    · simp [hP, hfs]

/-- Witness for C10: the empty camera state with no floor-plan image
option set. -/
theorem camera_image_absent_cases_witness :
    async_camera_image emptyFs false emptyCameraState =
      (none, emptyCameraState) :=
  camera_image_absent_cases emptyFs false emptyCameraState (Or.inl rfl)


end Bermuda
